import Mathlib

/-!
Verification development for the PX-OMS margin-optimization core.

The Python source is shallowly embedded: Python floats are modelled as
rationals (ℚ), dataclasses as structures, the mutable optimizer object as
explicit state passing, and fallible conversions (Python `float(...)` on
JSON-decoded values) as `Except` with an explicit exception kind.

Embedded modules:
* `metrics.py` — `compute_derived_metrics`, `WindowMetrics`,
  `compute_window_metrics`;
* `margin_optimizer.py` — `OptimizerState` (with `from_dict`),
  `MarginOptimizer.update`, `MarginOptimizer.suggest_next_margin`, and the
  state-loading path `_load_state`.
-/

namespace PXOMS

/-! ### JSON values and Python conversion semantics -/

/-- JSON values as produced by Python's `json.load`.  Objects are
association lists with (as `json.load` guarantees) distinct keys. -/
inductive Json where
  | null : Json
  | bool (b : Bool) : Json
  | num (q : ℚ) : Json
  | str (s : String) : Json
  | arr (elems : List Json) : Json
  | obj (fields : List (String × Json)) : Json

/-- The Python exception classes relevant to the embedded code paths. -/
inductive PyExc where
  | jsonDecodeError
  | keyError
  | valueError
  | typeError
  | attributeError
  deriving DecidableEq, Repr

/-- Numeric value of a decimal digit character. -/
def digitVal (c : Char) : ℕ := c.toNat - '0'.toNat

/-- Accumulate a digit string into a natural number. -/
def digitsToNat (l : List Char) : ℕ :=
  l.foldl (fun n c => 10 * n + digitVal c) 0

/-- Model of CPython's `float(<str>)` parsing, for the decimal literal
forms: optional surrounding spaces, optional sign, digits with an optional
fractional part.  The parser's success set is a strict subset of
CPython's, and the two agree on every success: strings CPython accepts
through exponents, underscore separators, non-space whitespace, or the
`inf`/`nan` spellings (whose values have no counterpart in ℚ at all) are
conservatively mapped to `none` here.  Theorems therefore rely on `some`
results only for their agreement with `float(...)`, and on `none` results
only for concrete strings (such as `""` or `"fast"`) that fall outside
CPython's accepted forms altogether, where `float(...)` raises
`ValueError`. -/
def pyFloatOfString (s : String) : Option ℚ :=
  let cs := (s.toList.dropWhile (· = ' ')).reverse.dropWhile (· = ' ') |>.reverse
  let signed : ℚ × List Char :=
    match cs with
    | '-' :: rest => (-1, rest)
    | '+' :: rest => (1, rest)
    | _ => (1, cs)
  let sign := signed.1
  let body := signed.2
  let intPart := body.takeWhile Char.isDigit
  let rest := body.dropWhile Char.isDigit
  match rest with
  | [] =>
      if intPart = [] then none
      else some (sign * (digitsToNat intPart : ℚ))
  | '.' :: afterPoint =>
      let fracPart := afterPoint.takeWhile Char.isDigit
      let rest2 := afterPoint.dropWhile Char.isDigit
      if rest2 = [] ∧ (intPart ≠ [] ∨ fracPart ≠ []) then
        some (sign * ((digitsToNat intPart : ℚ) +
          (digitsToNat fracPart : ℚ) / (10 : ℚ) ^ fracPart.length))
      else none
  | _ => none

/-- Python `float(v)` applied to a JSON-decoded value: numbers and booleans
convert, numeric strings parse, non-numeric strings raise `ValueError`,
and `None` / lists / dicts raise `TypeError`. -/
def jsonFloat : Json → Except PyExc ℚ
  | .num q => .ok q
  | .bool b => .ok (if b then 1 else 0)
  | .str s =>
      match pyFloatOfString s with
      | some q => .ok q
      | none => .error .valueError
  | .null => .error .typeError
  | .arr _ => .error .typeError
  | .obj _ => .error .typeError

/-- Python truthiness of a JSON-decoded value (`bool(v)`). -/
def pyTruthy : Json → Bool
  | .null => false
  | .bool b => b
  | .num q => decide (q ≠ 0)
  | .str s => decide (s ≠ "")
  | .arr l => !l.isEmpty
  | .obj l => !l.isEmpty

/-- `d.get(k)` on a Python dict decoded from JSON. -/
def lookup (d : List (String × Json)) (k : String) : Option Json :=
  (d.find? (fun p => p.1 = k)).map (·.2)

/-- Python's `l[-n:]`: the at most `n` most recent elements of `l`. -/
def keepLast (n : ℕ) (l : List α) : List α :=
  l.drop (l.length - n)

/-! ### metrics.py -/

/-- Result record of `compute_derived_metrics` (the dict returned by the
Python function, keys `profit`, `profit_per_1k`, `revenue_per_1k`,
`cost_per_1k`, `srpm`, `impression_rate`). -/
structure DerivedMetrics where
  profit : ℚ
  profit_per_1k : ℚ
  revenue_per_1k : ℚ
  cost_per_1k : ℚ
  srpm : ℚ
  impression_rate : ℚ

/-- Embedding of `metrics.compute_derived_metrics` (metrics.py lines 9–44):
denominators are floored to 1 when the natural denominator is not positive,
and the `impression_rate` expression carries the source's
`if denom_resp else 0.0` guard. -/
def compute_derived_metrics (impressions revenue cost responses : ℚ) :
    DerivedMetrics :=
  let denom_impr : ℚ := if impressions > 0 then impressions else 1
  let denom_resp : ℚ := if responses > 0 then responses else 1
  let profit := revenue - cost
  { profit := profit
    profit_per_1k := profit / denom_impr * 1000
    revenue_per_1k := revenue / denom_impr * 1000
    cost_per_1k := cost / denom_impr * 1000
    srpm := revenue / denom_impr * 1000
    impression_rate := if denom_resp ≠ 0 then impressions / denom_resp else 0 }

/-- Embedding of the dataclass `metrics.WindowMetrics`. -/
structure WindowMetrics where
  profit : ℚ
  profit_per_1k : ℚ
  revenue_per_1k : ℚ
  cost_per_1k : ℚ
  srpm : ℚ
  impressions : ℚ
  responses : ℚ
  bid_rate : ℚ
  margin : ℚ
  impression_rate : ℚ

/-- `compute_window_metrics` specialised to already-numeric field values
(the call path used by `MarginOptimizer.update`, which builds the window
dict from float arguments, so each `float(... or 0)` conversion is either
the identity or maps the falsy `0.0` to `0`).
`computeWindowMetricsOfFloats_sound` below ties this to the general
dict-based `compute_window_metrics`. -/
def windowMetricsOfFloats
    (margin impressions revenue cost bid_rate responses : ℚ) : WindowMetrics :=
  let derived := compute_derived_metrics impressions revenue cost responses
  { profit := derived.profit
    profit_per_1k := derived.profit_per_1k
    revenue_per_1k := derived.revenue_per_1k
    cost_per_1k := derived.cost_per_1k
    srpm := derived.srpm
    impressions := impressions
    responses := responses
    bid_rate := bid_rate
    margin := margin
    impression_rate := derived.impression_rate }

/-- `float(window.get(k, 0) or 0)` — the per-field conversion step of
`compute_window_metrics` (metrics.py lines 71–76): an absent field defaults
to `0`, a falsy present value (`0`, `0.0`, `""`, `None`, `[]`, `{}`,
`False`) is replaced by `0` before conversion, and any other value goes
through Python `float(...)`, which may raise. -/
def getFloatOrZero (w : List (String × Json)) (k : String) : Except PyExc ℚ :=
  let v := (lookup w k).getD (.num 0)
  if pyTruthy v then jsonFloat v else .ok 0

/-- Embedding of `metrics.compute_window_metrics` (metrics.py lines 63–91)
on a raw window dict, converting the six fields in source order and then
assembling `WindowMetrics` from `compute_derived_metrics`. -/
def compute_window_metrics (w : List (String × Json)) :
    Except PyExc WindowMetrics := do
  let impressions ← getFloatOrZero w "impressions"
  let revenue ← getFloatOrZero w "revenue"
  let cost ← getFloatOrZero w "cost"
  let bid_rate ← getFloatOrZero w "bid_rate"
  let margin ← getFloatOrZero w "margin"
  let responses ← getFloatOrZero w "responses"
  .ok (windowMetricsOfFloats margin impressions revenue cost bid_rate responses)

/-! ### margin_optimizer.py -/

/-- The constructor parameters of `MarginOptimizer.__init__`
(margin_optimizer.py lines 50–68), stored on the optimizer object and read
(but never written) by `suggest_next_margin`. -/
structure Config where
  baseline_margin : ℚ := 35
  step : ℚ := 1
  min_step : ℚ := 1/4
  /-- `min_impressions_per_decision`: stored but never read by the decision logic. -/
  min_impressions : ℤ := 0
  /-- `min_profit_per_decision`: stored but never read by the decision logic. -/
  min_profit : ℚ := 0
  guardrail_drop_pct : ℚ := 10
  min_profit_improvement_pct : ℚ := 2

/-- Embedding of the dataclass `OptimizerState` (margin_optimizer.py lines
13–22).  `history` entries are raw JSON dicts, as they are both when
appended by `update` and when loaded by `from_dict`. -/
structure OptimizerState where
  baseline_margin : ℚ
  last_safe_margin : ℚ
  current_margin : ℚ
  step : ℚ
  baseline_srpm : Option ℚ := none
  baseline_bid_rate : Option ℚ := none
  baseline_profit : Option ℚ := none
  history : List Json := []

/-- The fresh state built in `MarginOptimizer.__init__` (margin_optimizer.py
lines 70–75) before `_load_state` runs. -/
def initState (cfg : Config) : OptimizerState :=
  { baseline_margin := cfg.baseline_margin
    last_safe_margin := cfg.baseline_margin
    current_margin := cfg.baseline_margin
    step := cfg.step }

/-- The six float arguments of `update` / `suggest_next_margin`. -/
structure Window where
  margin : ℚ
  impressions : ℚ
  revenue : ℚ
  cost : ℚ
  bid_rate : ℚ
  responses : ℚ := 0

/-- The dict appended to `history` by `MarginOptimizer.update`
(margin_optimizer.py lines 125–136). -/
def historyEntry (w : Window) (wm : WindowMetrics) : Json :=
  .obj [("margin", .num w.margin), ("impressions", .num w.impressions),
    ("revenue", .num w.revenue), ("cost", .num w.cost),
    ("bid_rate", .num w.bid_rate), ("profit", .num wm.profit),
    ("profit_per_1k", .num wm.profit_per_1k),
    ("revenue_per_1k", .num wm.revenue_per_1k),
    ("cost_per_1k", .num wm.cost_per_1k), ("srpm", .num wm.srpm)]

/-- The metrics `compute_window_metrics` derives for the window dict that
`update` builds from its six float arguments. -/
def wmOf (w : Window) : WindowMetrics :=
  windowMetricsOfFloats w.margin w.impressions w.revenue w.cost
    w.bid_rate w.responses

/-- Embedding of `MarginOptimizer.update` (margin_optimizer.py lines
106–139): derive the window metrics, append the history entry, trim the
history to the last 100 entries, persist (modelled by returning the new
state), and return the metrics. -/
def update (s : OptimizerState) (w : Window) : WindowMetrics × OptimizerState :=
  let wm := wmOf w
  (wm, { s with history := keepLast 100 (s.history ++ [historyEntry w wm]) })

/-- The guardrail test of `suggest_next_margin` (margin_optimizer.py lines
167–171): `srpm_ok and bid_rate_ok`, where a missing baseline reads as `0`
via Python's `or 0` (for an `Option ℚ` this coincides with `getD 0`, since
the only falsy float is `0.0`). -/
def guardrailCheck (cfg : Config) (s : OptimizerState) (wm : WindowMetrics) :
    Prop :=
  wm.srpm ≥ (1 - cfg.guardrail_drop_pct / 100) * s.baseline_srpm.getD 0 ∧
  wm.bid_rate ≥ (1 - cfg.guardrail_drop_pct / 100) * s.baseline_bid_rate.getD 0

instance (cfg : Config) (s : OptimizerState) (wm : WindowMetrics) :
    Decidable (guardrailCheck cfg s wm) :=
  instDecidableAnd

/-- The profit-improvement figure of `suggest_next_margin`
(margin_optimizer.py lines 181–185): `baseline_profit or 0` (again `getD 0`)
as the base, the percentage formula when the base is positive, else 100 for
positive window profit and 0 otherwise. -/
def improvement (s : OptimizerState) (wm : WindowMetrics) : ℚ :=
  let base_profit := s.baseline_profit.getD 0
  if base_profit > 0 then (wm.profit - base_profit) / base_profit * 100
  else if wm.profit > 0 then 100 else 0

/-- Embedding of `MarginOptimizer.suggest_next_margin` (margin_optimizer.py
lines 141–201).  Returns the proposed margin together with the new
persisted state. -/
def suggest_next_margin (cfg : Config) (s : OptimizerState) (w : Window) :
    ℚ × OptimizerState :=
  let wms := update s w
  let wm := wms.1
  let s1 := wms.2
  match s1.baseline_srpm with
  | none =>
      let s2 := { s1 with
        baseline_srpm := some wm.srpm
        baseline_bid_rate := some wm.bid_rate
        baseline_profit := some wm.profit
        last_safe_margin := w.margin
        current_margin := w.margin + s1.step }
      (s2.current_margin, s2)
  | some _ =>
      if ¬ guardrailCheck cfg s1 wm then
        let s2 := { s1 with
          current_margin := s1.last_safe_margin
          step := max (s1.step / 2) cfg.min_step }
        (s2.current_margin, s2)
      else if improvement s1 wm ≥ cfg.min_profit_improvement_pct then
        let s2 := { s1 with
          last_safe_margin := w.margin
          baseline_srpm := some wm.srpm
          baseline_bid_rate := some wm.bid_rate
          baseline_profit := some wm.profit
          current_margin := w.margin + s1.step }
        (s2.current_margin, s2)
      else
        let s2 := { s1 with
          current_margin := s1.last_safe_margin
          step := max (s1.step / 2) cfg.min_step }
        (s2.current_margin, s2)

/-- A sequence of `suggest_next_margin` calls, ignoring the returned
margins (the state after a run of windows). -/
def runWindows (cfg : Config) (s : OptimizerState) (ws : List Window) :
    OptimizerState :=
  ws.foldl (fun st w => (suggest_next_margin cfg st w).2) s

/-- An observation: the non-margin fields of a window, for driving the
optimizer in the closed loop where each call reports on the margin the
optimizer itself proposed. -/
structure Obs where
  impressions : ℚ
  revenue : ℚ
  cost : ℚ
  bid_rate : ℚ
  responses : ℚ := 0

/-- The window reporting observation `o` for margin `m`. -/
def obsWindow (m : ℚ) (o : Obs) : Window :=
  { margin := m, impressions := o.impressions, revenue := o.revenue,
    cost := o.cost, bid_rate := o.bid_rate, responses := o.responses }

/-- Closed-loop driving of the optimizer: each call's window carries the
state's `current_margin` (the margin the optimizer last proposed), and the
returned margins are collected. -/
def closedLoopReturns (cfg : Config) :
    OptimizerState → List Obs → List ℚ
  | _, [] => []
  | s, o :: rest =>
      let r := suggest_next_margin cfg s (obsWindow s.current_margin o)
      r.1 :: closedLoopReturns cfg r.2 rest

/-! ### State persistence: `from_dict` and `_load_state` -/

/-- `float(d["k"]) if d.get("k") is not None else None` — the optional-field
reads of `OptimizerState.from_dict` (margin_optimizer.py lines 35–37). -/
def optFloat : Option Json → Except PyExc (Option ℚ)
  | none => .ok none
  | some .null => .ok none
  | some v => some <$> jsonFloat v

/-- `d.get("history", [])[-100:]` (margin_optimizer.py line 38): default to
the empty list, keep the last 100 entries.  `None`, numbers, booleans and
dicts are not subscriptable by a slice, so Python raises `TypeError` on
them.  A str-valued `history` is the one case Python would accept — it
slices the string and loads a state whose history is a `str`, a value the
`history : List Json` field of this state model cannot represent — so it
lies outside the modelled domain and is conservatively mapped to an error
here: the model's successful loads are a subset of Python's and agree with
Python wherever both succeed, and the theorems below use only that sound
direction. -/
def historyFromJson : Option Json → Except PyExc (List Json)
  | none => .ok []
  | some (.arr l) => .ok (keepLast 100 l)
  | some (.str _) => .error .typeError
  | some _ => .error .typeError

/-- Embedding of `OptimizerState.from_dict` (margin_optimizer.py lines
28–39): field-by-field conversion with defaults for absent keys.  A
non-dict JSON value raises `AttributeError` (no `.get` method), and any
failing `float(...)` conversion propagates.  Per the notes on
`pyFloatOfString` and `historyFromJson`, a successful decode agrees with
Python's, while an error result is guaranteed to match a Python exception
only on inputs inside the modelled domain (e.g. a numeric field holding a
string outside CPython's accepted float spellings). -/
def from_dict (j : Json) : Except PyExc OptimizerState :=
  match j with
  | .obj d => do
      let baseline_margin ← jsonFloat ((lookup d "baseline_margin").getD (.num 35))
      let last_safe_margin ← jsonFloat ((lookup d "last_safe_margin").getD (.num 35))
      let current_margin ← jsonFloat ((lookup d "current_margin").getD (.num 35))
      let step ← jsonFloat ((lookup d "step").getD (.num 1))
      let baseline_srpm ← optFloat (lookup d "baseline_srpm")
      let baseline_bid_rate ← optFloat (lookup d "baseline_bid_rate")
      let baseline_profit ← optFloat (lookup d "baseline_profit")
      let history ← historyFromJson (lookup d "history")
      .ok (⟨baseline_margin, last_safe_margin, current_margin, step,
        baseline_srpm, baseline_bid_rate, baseline_profit, history⟩ :
        OptimizerState)
  | _ => .error .attributeError

/-- The persisted blob as seen by `_load_state`: `none` when no local file
exists (the S3 fallback is then also modelled as absent/unconfigured),
`some none` when the file exists but `json.load` fails, `some (some j)`
when it parses to `j`. -/
def loadState (blob : Option (Option Json)) (fresh : OptimizerState) :
    Except PyExc OptimizerState :=
  match blob with
  | none => .ok fresh
  | some none => .ok fresh
  | some (some j) =>
      match from_dict j with
      | .ok s => .ok s
      | .error .jsonDecodeError => .ok fresh
      | .error .keyError => .ok fresh
      | .error e => .error e

/-! ### Concrete fixtures (the spec's worked scenarios) -/

/-- The configuration used by `run_optimizer.py` (all constructor defaults). -/
def cfgDefault : Config := {}

/-- The spec's cold-start window: margin 35, 55000 impressions, revenue
25.0, cost 16.0, bid rate 1.5, 28000 responses. -/
def coldWindow : Window :=
  { margin := 35, impressions := 55000, revenue := 25, cost := 16,
    bid_rate := 3/2, responses := 28000 }

/-- The spec's guardrail-failure window: margin 36, revenue 20.0 (sRPM
4/11 < 0.9 × 5/11). -/
def failWindow : Window :=
  { margin := 36, impressions := 55000, revenue := 20, cost := 16,
    bid_rate := 3/2, responses := 28000 }

/-- An improving window at margin 36: profit 10 against baseline 9. -/
def acceptWindow : Window :=
  { margin := 36, impressions := 55000, revenue := 26, cost := 16,
    bid_rate := 3/2, responses := 28000 }

/-- The optimizer state after the spec's cold-start call. -/
def stateAfterColdStart : OptimizerState :=
  (suggest_next_margin cfgDefault (initState cfgDefault) coldWindow).2

/-! ### Helper lemmas -/

theorem keepLast_length_le (n : ℕ) (l : List α) : (keepLast n l).length ≤ n := by
  simp only [keepLast, List.length_drop]
  omega

theorem keepLast_suffix (n : ℕ) (l : List α) : keepLast n l <:+ l :=
  ⟨l.take (l.length - n), List.take_append_drop _ l⟩

theorem except_bind_ok {ε α β : Type} (x : Except ε α) (f : α → Except ε β)
    (b : β) (h : x >>= f = .ok b) : ∃ a, x = .ok a ∧ f a = .ok b := by
  cases x with
  | ok a => exact ⟨a, rfl, h⟩
  | error e => exact absurd h (by simp [Bind.bind, Except.bind])

/-! ### Claims -/

/-- C4: for all finite non-negative inputs (including all-zero),
`compute_derived_metrics` is total and returns exactly `profit = revenue -
cost`, the three per-1k figures and `srpm` divided by `D = impressions if
impressions > 0 else 1`, and `impression_rate = impressions / R` with `R =
responses if responses > 0 else 1`; the two denominator floors are applied
independently, both denominators are nonzero (no division error), and in
particular zero impressions give `profit_per_1k = profit * 1000` while zero
responses give `impression_rate = impressions`. -/
theorem c4_derived_metrics_formulas (impressions revenue cost responses : ℚ)
    (hi : 0 ≤ impressions) (hr : 0 ≤ revenue) (hc : 0 ≤ cost)
    (hq : 0 ≤ responses) :
    (if impressions > 0 then impressions else 1) ≠ 0 ∧
    (if responses > 0 then responses else 1) ≠ 0 ∧
    (compute_derived_metrics impressions revenue cost responses).profit =
      revenue - cost ∧
    (compute_derived_metrics impressions revenue cost responses).profit_per_1k =
      (revenue - cost) / (if impressions > 0 then impressions else 1) * 1000 ∧
    (compute_derived_metrics impressions revenue cost responses).revenue_per_1k =
      revenue / (if impressions > 0 then impressions else 1) * 1000 ∧
    (compute_derived_metrics impressions revenue cost responses).srpm =
      revenue / (if impressions > 0 then impressions else 1) * 1000 ∧
    (compute_derived_metrics impressions revenue cost responses).cost_per_1k =
      cost / (if impressions > 0 then impressions else 1) * 1000 ∧
    (compute_derived_metrics impressions revenue cost responses).impression_rate =
      impressions / (if responses > 0 then responses else 1) ∧
    (impressions = 0 →
      (compute_derived_metrics impressions revenue cost responses).profit_per_1k =
        (compute_derived_metrics impressions revenue cost responses).profit * 1000) ∧
    (responses = 0 →
      (compute_derived_metrics impressions revenue cost responses).impression_rate =
        impressions) := by
  have hD : (if impressions > 0 then impressions else 1) ≠ 0 := by
    split <;> [linarith; norm_num]
  have hR : (if responses > 0 then responses else 1) ≠ 0 := by
    split <;> [linarith; norm_num]
  refine ⟨hD, hR, rfl, rfl, rfl, rfl, rfl, ?_, ?_, ?_⟩
  · simp only [compute_derived_metrics, if_neg (not_lt.mpr (le_of_eq rfl)), hR,
      ne_eq, not_false_iff, if_pos]
  · intro h0
    simp only [compute_derived_metrics, h0]
    norm_num
  · intro h0
    simp only [compute_derived_metrics, h0]
    norm_num

/-- Witness for C4 at the all-floored input (0 impressions, revenue 5,
cost 2, 0 responses): profit is 3 exactly, `profit_per_1k` is the raw
profit × 1000, and `impression_rate` is the raw impression count. -/
theorem c4_witness :
    (compute_derived_metrics 0 5 2 0).profit = 3 ∧
    (compute_derived_metrics 0 5 2 0).profit_per_1k = 3000 ∧
    (compute_derived_metrics 0 5 2 0).impression_rate = 0 := by
  obtain ⟨-, -, h3, -, -, -, -, -, h9, h10⟩ :=
    c4_derived_metrics_formulas 0 5 2 0 (by norm_num) (by norm_num)
      (by norm_num) (by norm_num)
  refine ⟨by rw [h3]; norm_num, ?_, by rw [h10 rfl]⟩
  rw [h9 rfl, h3]
  norm_num

/-- C3: on a state with no baseline sRPM recorded, `suggest_next_margin`
adopts the window's derived sRPM, bid rate and profit as the baseline, sets
`last_safe_margin` to the window's margin, proposes and returns
`margin + step` with the step unchanged; and once a baseline exists, no
later call ever clears it, so the cold-start branch never recurs. -/
theorem c3_cold_start (cfg : Config) (s : OptimizerState) (w : Window)
    (h : s.baseline_srpm = none) :
    (suggest_next_margin cfg s w).2.baseline_srpm = some (wmOf w).srpm ∧
    (suggest_next_margin cfg s w).2.baseline_bid_rate = some (wmOf w).bid_rate ∧
    (suggest_next_margin cfg s w).2.baseline_profit = some (wmOf w).profit ∧
    (suggest_next_margin cfg s w).2.last_safe_margin = w.margin ∧
    (suggest_next_margin cfg s w).1 = w.margin + s.step ∧
    (suggest_next_margin cfg s w).2.current_margin = w.margin + s.step ∧
    (suggest_next_margin cfg s w).2.step = s.step ∧
    (∀ (s' : OptimizerState) (w' : Window), s'.baseline_srpm ≠ none →
      (suggest_next_margin cfg s' w').2.baseline_srpm ≠ none) := by
  refine ⟨?_, ?_, ?_, ?_, ?_, ?_, ?_, ?_⟩
  case _ => simp [suggest_next_margin, update, h]
  case _ => simp [suggest_next_margin, update, h]
  case _ => simp [suggest_next_margin, update, h]
  case _ => simp [suggest_next_margin, update, h]
  case _ => simp [suggest_next_margin, update, h]
  case _ => simp [suggest_next_margin, update, h]
  case _ => simp [suggest_next_margin, update, h]
  case _ =>
    intro s' w' h'
    rcases hb : s'.baseline_srpm with _ | bs
    · exact absurd hb h'
    · simp only [suggest_next_margin, update]
      simp only [hb]
      split
      · simp
      · split
        · simp
        · simp

/-- Witness for C3: constructed with baseline margin 35 and step 1, the
first call on the spec's cold-start window sets baseline sRPM to
25.0/55000×1000, baseline bid rate to 1.5, baseline profit to 9.0, the
last safe margin to 35, and returns 36.0. -/
theorem c3_witness :
    stateAfterColdStart.baseline_srpm = some (25 / 55000 * 1000) ∧
    stateAfterColdStart.baseline_bid_rate = some (3 / 2) ∧
    stateAfterColdStart.baseline_profit = some 9 ∧
    stateAfterColdStart.last_safe_margin = 35 ∧
    (suggest_next_margin cfgDefault (initState cfgDefault) coldWindow).1 = 36 := by
  obtain ⟨h1, h2, h3, h4, h5, -, -, -⟩ :=
    c3_cold_start cfgDefault (initState cfgDefault) coldWindow rfl
  simp only [stateAfterColdStart]
  refine ⟨?_, ?_, ?_, ?_, ?_⟩
  · rw [h1]
    norm_num [wmOf, windowMetricsOfFloats, compute_derived_metrics, coldWindow]
  · rw [h2]
    norm_num [wmOf, windowMetricsOfFloats, coldWindow]
  · rw [h3]
    norm_num [wmOf, windowMetricsOfFloats, compute_derived_metrics, coldWindow]
  · rw [h4]
    norm_num [coldWindow]
  · rw [h5]
    norm_num [coldWindow, initState, cfgDefault]

/-- C1: with a baseline recorded, the guardrail check of
`suggest_next_margin` passes exactly when the window's sRPM is at least
`(1 - guardrail_drop_pct/100) ×` the baseline sRPM and the window's bid
rate is at least the same fraction of the baseline bid rate; when either
conjunct fails, the call returns `last_safe_margin`, sets `current_margin`
to it, and sets the step to `max(step/2, min_step)`. -/
theorem c1_guardrail_check (cfg : Config) (s : OptimizerState) (w : Window)
    (bs bb : ℚ) (hs : s.baseline_srpm = some bs)
    (hb : s.baseline_bid_rate = some bb) :
    (guardrailCheck cfg (update s w).2 (wmOf w) ↔
      (wmOf w).srpm ≥ (1 - cfg.guardrail_drop_pct / 100) * bs ∧
      (wmOf w).bid_rate ≥ (1 - cfg.guardrail_drop_pct / 100) * bb) ∧
    (¬((wmOf w).srpm ≥ (1 - cfg.guardrail_drop_pct / 100) * bs ∧
        (wmOf w).bid_rate ≥ (1 - cfg.guardrail_drop_pct / 100) * bb) →
      (suggest_next_margin cfg s w).1 = s.last_safe_margin ∧
      (suggest_next_margin cfg s w).2.current_margin = s.last_safe_margin ∧
      (suggest_next_margin cfg s w).2.step = max (s.step / 2) cfg.min_step) := by
  have hiff : guardrailCheck cfg (update s w).2 (wmOf w) ↔
      (wmOf w).srpm ≥ (1 - cfg.guardrail_drop_pct / 100) * bs ∧
      (wmOf w).bid_rate ≥ (1 - cfg.guardrail_drop_pct / 100) * bb := by
    simp [guardrailCheck, update, hs, hb]
  refine ⟨hiff, fun hfail => ?_⟩
  have hg : ¬ guardrailCheck cfg (update s w).2 (wmOf w) := fun hc =>
    hfail (hiff.mp hc)
  simp only [update, hs] at hg
  simp only [suggest_next_margin, update, hs]
  rw [if_pos hg]
  exact ⟨rfl, rfl, rfl⟩

/-- Witness for C1 at the spec's guardrail-failure scenario: after the
cold start (baseline sRPM 5/11, step 1), the window (margin 36,
impressions 55000, revenue 20.0, cost 16.0, bid rate 1.5, responses 28000)
has sRPM 4/11 < 0.9 × 5/11, so the call returns 35.0 and the step drops
to 0.5. -/
theorem c1_witness :
    (suggest_next_margin cfgDefault stateAfterColdStart failWindow).1 = 35 ∧
    (suggest_next_margin cfgDefault stateAfterColdStart failWindow).2.step =
      1/2 := by
  have hs : stateAfterColdStart.baseline_srpm = some (5/11) := by
    norm_num [stateAfterColdStart, suggest_next_margin, update, initState,
      cfgDefault, wmOf, windowMetricsOfFloats, compute_derived_metrics,
      coldWindow]
  have hb : stateAfterColdStart.baseline_bid_rate = some (3/2) := by
    norm_num [stateAfterColdStart, suggest_next_margin, update, initState,
      cfgDefault, wmOf, windowMetricsOfFloats, compute_derived_metrics,
      coldWindow]
  obtain ⟨-, h⟩ := c1_guardrail_check cfgDefault stateAfterColdStart
    failWindow (5/11) (3/2) hs hb
  have hfail : ¬((wmOf failWindow).srpm ≥
      (1 - cfgDefault.guardrail_drop_pct / 100) * (5/11) ∧
      (wmOf failWindow).bid_rate ≥
      (1 - cfgDefault.guardrail_drop_pct / 100) * (3/2)) := by
    norm_num [wmOf, windowMetricsOfFloats, compute_derived_metrics,
      failWindow, cfgDefault]
  obtain ⟨h1, -, h3⟩ := h hfail
  have hsafe : stateAfterColdStart.last_safe_margin = 35 := by
    norm_num [stateAfterColdStart, suggest_next_margin, update, initState,
      cfgDefault, coldWindow]
  have hstep : stateAfterColdStart.step = 1 := by
    norm_num [stateAfterColdStart, suggest_next_margin, update, initState,
      cfgDefault, coldWindow]
  refine ⟨by rw [h1, hsafe], ?_⟩
  rw [h3, hstep]
  norm_num [cfgDefault]

/-- C2: with a baseline set and the guardrails passing, the profit
improvement is `(profit - baseline_profit)/baseline_profit × 100` for a
positive baseline profit and `100`/`0` (by the sign of the window profit)
otherwise; at or above `min_profit_improvement_pct` the call accepts
(re-anchors the baseline to the window's metrics, sets `last_safe_margin`
to the window's margin, and returns `margin + step` with the step
unchanged), and below it the call holds (returns `last_safe_margin` and
sets the step to `max(step/2, min_step)`). -/
theorem c2_profit_improvement (cfg : Config) (s : OptimizerState) (w : Window)
    (bs bb bp : ℚ) (hs : s.baseline_srpm = some bs)
    (hb : s.baseline_bid_rate = some bb) (hp : s.baseline_profit = some bp)
    (hpass : guardrailCheck cfg (update s w).2 (wmOf w)) :
    improvement (update s w).2 (wmOf w) =
      (if bp > 0 then ((wmOf w).profit - bp) / bp * 100
       else if (wmOf w).profit > 0 then 100 else 0) ∧
    (improvement (update s w).2 (wmOf w) ≥ cfg.min_profit_improvement_pct →
      (suggest_next_margin cfg s w).2.baseline_srpm = some (wmOf w).srpm ∧
      (suggest_next_margin cfg s w).2.baseline_bid_rate =
        some (wmOf w).bid_rate ∧
      (suggest_next_margin cfg s w).2.baseline_profit = some (wmOf w).profit ∧
      (suggest_next_margin cfg s w).2.last_safe_margin = w.margin ∧
      (suggest_next_margin cfg s w).1 = w.margin + s.step ∧
      (suggest_next_margin cfg s w).2.current_margin = w.margin + s.step ∧
      (suggest_next_margin cfg s w).2.step = s.step) ∧
    (¬ improvement (update s w).2 (wmOf w) ≥ cfg.min_profit_improvement_pct →
      (suggest_next_margin cfg s w).1 = s.last_safe_margin ∧
      (suggest_next_margin cfg s w).2.current_margin = s.last_safe_margin ∧
      (suggest_next_margin cfg s w).2.step = max (s.step / 2) cfg.min_step) := by
  refine ⟨by simp [improvement, update, hp], fun himp => ?_, fun hnot => ?_⟩
  · simp only [update, hs] at hpass himp
    simp only [suggest_next_margin, update, hs]
    rw [if_neg (not_not_intro hpass), if_pos himp]
    exact ⟨rfl, rfl, rfl, rfl, rfl, rfl, rfl⟩
  · simp only [update, hs] at hpass hnot
    simp only [suggest_next_margin, update, hs]
    rw [if_neg (not_not_intro hpass), if_neg hnot]
    exact ⟨rfl, rfl, rfl⟩

/-- Witness for C2 at the spec's accept scenario: from the cold-start
baseline (sRPM 5/11, bid rate 1.5, profit 9, step 1), a window at margin
36 with revenue 26.0 (profit 10, improvement 100/9 % ≥ 2 %) and guardrails
passing re-anchors the baseline profit to 10 and returns 37.0 with the
step still 1. -/
theorem c2_witness :
    (suggest_next_margin cfgDefault stateAfterColdStart acceptWindow).1 = 37 ∧
    (suggest_next_margin cfgDefault stateAfterColdStart
      acceptWindow).2.baseline_profit = some 10 ∧
    (suggest_next_margin cfgDefault stateAfterColdStart
      acceptWindow).2.step = 1 := by
  have hs : stateAfterColdStart.baseline_srpm = some (5/11) := by
    norm_num [stateAfterColdStart, suggest_next_margin, update, initState,
      cfgDefault, wmOf, windowMetricsOfFloats, compute_derived_metrics,
      coldWindow]
  have hb : stateAfterColdStart.baseline_bid_rate = some (3/2) := by
    norm_num [stateAfterColdStart, suggest_next_margin, update, initState,
      cfgDefault, wmOf, windowMetricsOfFloats, compute_derived_metrics,
      coldWindow]
  have hp : stateAfterColdStart.baseline_profit = some 9 := by
    norm_num [stateAfterColdStart, suggest_next_margin, update, initState,
      cfgDefault, wmOf, windowMetricsOfFloats, compute_derived_metrics,
      coldWindow]
  have hpass : guardrailCheck cfgDefault
      (update stateAfterColdStart acceptWindow).2 (wmOf acceptWindow) := by
    constructor <;>
      norm_num [update, hs, hb, cfgDefault, wmOf, windowMetricsOfFloats,
        compute_derived_metrics, acceptWindow]
  obtain ⟨-, h, -⟩ := c2_profit_improvement cfgDefault stateAfterColdStart
    acceptWindow (5/11) (3/2) 9 hs hb hp hpass
  have himp : improvement (update stateAfterColdStart acceptWindow).2
      (wmOf acceptWindow) ≥ cfgDefault.min_profit_improvement_pct := by
    norm_num [improvement, update, hp, cfgDefault, wmOf,
      windowMetricsOfFloats, compute_derived_metrics, acceptWindow]
  obtain ⟨-, -, h3, -, h5, -, h7⟩ := h himp
  have hstep : stateAfterColdStart.step = 1 := by
    norm_num [stateAfterColdStart, suggest_next_margin, update, initState,
      cfgDefault, coldWindow]
  refine ⟨?_, ?_, ?_⟩
  · rw [h5, hstep]
    norm_num [acceptWindow]
  · rw [h3]
    norm_num [wmOf, windowMetricsOfFloats, compute_derived_metrics,
      acceptWindow]
  · rw [h7, hstep]

/-- C6: on a call whose outcome is a guardrail rollback or a hold (a
baseline exists and the accept condition — guardrails passing with enough
improvement — does not hold), the fields `baseline_srpm`,
`baseline_bid_rate`, `baseline_profit` and `last_safe_margin` are left
unchanged; and no call in any branch ever modifies `baseline_margin`. -/
theorem c6_frame (cfg : Config) (s : OptimizerState) (w : Window)
    (hsome : s.baseline_srpm ≠ none)
    (hrej : ¬(guardrailCheck cfg (update s w).2 (wmOf w) ∧
      improvement (update s w).2 (wmOf w) ≥ cfg.min_profit_improvement_pct)) :
    (suggest_next_margin cfg s w).2.baseline_srpm = s.baseline_srpm ∧
    (suggest_next_margin cfg s w).2.baseline_bid_rate = s.baseline_bid_rate ∧
    (suggest_next_margin cfg s w).2.baseline_profit = s.baseline_profit ∧
    (suggest_next_margin cfg s w).2.last_safe_margin = s.last_safe_margin ∧
    (∀ (s' : OptimizerState) (w' : Window),
      (suggest_next_margin cfg s' w').2.baseline_margin =
        s'.baseline_margin) := by
  rcases hbs : s.baseline_srpm with _ | bs
  · exact absurd hbs hsome
  · have hmain : (suggest_next_margin cfg s w).2.baseline_srpm =
        s.baseline_srpm ∧
        (suggest_next_margin cfg s w).2.baseline_bid_rate =
          s.baseline_bid_rate ∧
        (suggest_next_margin cfg s w).2.baseline_profit =
          s.baseline_profit ∧
        (suggest_next_margin cfg s w).2.last_safe_margin =
          s.last_safe_margin := by
      by_cases hg : guardrailCheck cfg (update s w).2 (wmOf w)
      · have himp : ¬ improvement (update s w).2 (wmOf w) ≥
            cfg.min_profit_improvement_pct := fun hi => hrej ⟨hg, hi⟩
        simp only [update, hbs] at hg himp
        simp only [suggest_next_margin, update, hbs]
        rw [if_neg (not_not_intro hg), if_neg himp]
        exact ⟨rfl, rfl, rfl, rfl⟩
      · simp only [update, hbs] at hg
        simp only [suggest_next_margin, update, hbs]
        rw [if_pos hg]
        exact ⟨rfl, rfl, rfl, rfl⟩
    refine ⟨hmain.1.trans hbs, hmain.2.1, hmain.2.2.1, hmain.2.2.2, ?_⟩
    intro s' w'
    rcases hb' : s'.baseline_srpm with _ | bs'
    · simp [suggest_next_margin, update, hb']
    · simp only [suggest_next_margin, update, hb']
      split
      · rfl
      · split
        · rfl
        · rfl

/-- Witness for C6 at the spec's guardrail-failure scenario: the rollback
call leaves the cold-start baseline (sRPM 5/11, bid rate 1.5, profit 9)
and the last safe margin 35 untouched. -/
theorem c6_witness :
    (suggest_next_margin cfgDefault stateAfterColdStart
      failWindow).2.baseline_srpm = some (5/11) ∧
    (suggest_next_margin cfgDefault stateAfterColdStart
      failWindow).2.baseline_bid_rate = some (3/2) ∧
    (suggest_next_margin cfgDefault stateAfterColdStart
      failWindow).2.baseline_profit = some 9 ∧
    (suggest_next_margin cfgDefault stateAfterColdStart
      failWindow).2.last_safe_margin = 35 := by
  have hs : stateAfterColdStart.baseline_srpm = some (5/11) := by
    norm_num [stateAfterColdStart, suggest_next_margin, update, initState,
      cfgDefault, wmOf, windowMetricsOfFloats, compute_derived_metrics,
      coldWindow]
  have hb : stateAfterColdStart.baseline_bid_rate = some (3/2) := by
    norm_num [stateAfterColdStart, suggest_next_margin, update, initState,
      cfgDefault, wmOf, windowMetricsOfFloats, compute_derived_metrics,
      coldWindow]
  have hp : stateAfterColdStart.baseline_profit = some 9 := by
    norm_num [stateAfterColdStart, suggest_next_margin, update, initState,
      cfgDefault, wmOf, windowMetricsOfFloats, compute_derived_metrics,
      coldWindow]
  have hsafe : stateAfterColdStart.last_safe_margin = 35 := by
    norm_num [stateAfterColdStart, suggest_next_margin, update, initState,
      cfgDefault, coldWindow]
  have hrej : ¬(guardrailCheck cfgDefault
      (update stateAfterColdStart failWindow).2 (wmOf failWindow) ∧
      improvement (update stateAfterColdStart failWindow).2
        (wmOf failWindow) ≥ cfgDefault.min_profit_improvement_pct) := by
    rintro ⟨⟨hg, -⟩, -⟩
    rw [show (update stateAfterColdStart failWindow).2.baseline_srpm =
      some (5/11) by simp [update, hs]] at hg
    norm_num [wmOf, windowMetricsOfFloats, compute_derived_metrics,
      failWindow, cfgDefault] at hg
  obtain ⟨h1, h2, h3, h4, -⟩ := c6_frame cfgDefault stateAfterColdStart
    failWindow (by rw [hs]; exact Option.some_ne_none _) hrej
  exact ⟨h1.trans hs, h2.trans hb, h3.trans hp, h4.trans hsafe⟩

/-- An optimizer constructed with `step=0.1` below `min_step=0.25`
(the constructor accepts any such pair). -/
def cfgLowStep : Config := { step := 1/10 }

/-- The low-step optimizer's state after the cold-start window. -/
def lowStepState : OptimizerState :=
  (suggest_next_margin cfgLowStep (initState cfgLowStep) coldWindow).2

/-- Counterexample to C5 as stated: for an optimizer constructed with
step 0.1 and min_step 0.25, the cold start leaves the step at 0.1, and
the next call (a guardrail rollback) sets it to `max(0.05, 0.25) = 0.25`
— the step *grows* across a call, so it is not monotonically
non-increasing over every optimizer. -/
theorem c5_counterexample :
    lowStepState.step = 1/10 ∧
    (suggest_next_margin cfgLowStep lowStepState failWindow).2.step = 1/4 ∧
    ¬ (suggest_next_margin cfgLowStep lowStepState failWindow).2.step ≤
      lowStepState.step := by
  refine ⟨?_, ?_, ?_⟩ <;>
    norm_num [lowStepState, cfgLowStep, initState, suggest_next_margin,
      update, wmOf, windowMetricsOfFloats, compute_derived_metrics,
      coldWindow, failWindow, guardrailCheck, improvement]

theorem runWindows_cons (cfg : Config) (s : OptimizerState) (w : Window)
    (ws : List Window) :
    runWindows cfg s (w :: ws) =
      runWindows cfg (suggest_next_margin cfg s w).2 ws := rfl

theorem step_bounds (cfg : Config) (s : OptimizerState) (w : Window)
    (h0 : 0 ≤ cfg.min_step) (h1 : cfg.min_step ≤ s.step) :
    cfg.min_step ≤ (suggest_next_margin cfg s w).2.step ∧
    (suggest_next_margin cfg s w).2.step ≤ s.step := by
  rcases hbs : s.baseline_srpm with _ | bs
  · simp only [suggest_next_margin, update, hbs]
    exact ⟨h1, le_refl _⟩
  · simp only [suggest_next_margin, update, hbs]
    split
    · exact ⟨le_max_right _ _, max_le (by linarith) h1⟩
    · split
      · exact ⟨h1, le_refl _⟩
      · exact ⟨le_max_right _ _, max_le (by linarith) h1⟩

/-- C5 amended: provided the configured `min_step` is non-negative and no
greater than the state's step (as holds for every state an optimizer
constructed with `min_step ≤ step` can reach), the step after any sequence
of calls stays between `min_step` and the starting step (so it never
drops below the floor and never ends above where it started), a state
already at the floor stays exactly there, and each single call either
leaves the step unchanged (cold start and accept) or sets it to
`max(step/2, min_step)` (rollback and hold) — the step is never grown
past its starting value. -/
theorem c5_step_monotone (cfg : Config) (s : OptimizerState)
    (ws : List Window) (h0 : 0 ≤ cfg.min_step) (h1 : cfg.min_step ≤ s.step) :
    cfg.min_step ≤ (runWindows cfg s ws).step ∧
    (runWindows cfg s ws).step ≤ s.step ∧
    (s.step = cfg.min_step → (runWindows cfg s ws).step = cfg.min_step) ∧
    (∀ w, (suggest_next_margin cfg s w).2.step = s.step ∨
      (suggest_next_margin cfg s w).2.step = max (s.step / 2) cfg.min_step) := by
  have main : ∀ (l : List Window) (t : OptimizerState), cfg.min_step ≤ t.step →
      cfg.min_step ≤ (runWindows cfg t l).step ∧
      (runWindows cfg t l).step ≤ t.step := by
    intro l
    induction l with
    | nil => exact fun t ht => ⟨ht, le_refl _⟩
    | cons w rest ih =>
        intro t ht
        have hstep := step_bounds cfg t w h0 ht
        have hr := ih (suggest_next_margin cfg t w).2 hstep.1
        rw [runWindows_cons]
        exact ⟨hr.1, le_trans hr.2 hstep.2⟩
  obtain ⟨ha, hb⟩ := main ws s h1
  refine ⟨ha, hb, fun hfloor => le_antisymm (hfloor ▸ hb) ha, fun w => ?_⟩
  rcases hbs : s.baseline_srpm with _ | bs
  · left
    simp only [suggest_next_margin, update, hbs]
  · simp only [suggest_next_margin, update, hbs]
    split
    · right; rfl
    · split
      · left; rfl
      · right; rfl

/-- Witness for C5 at the default configuration: starting from the
cold-start state (step 1 ≥ min_step 1/4), one rollback call keeps the
step within `[1/4, 1]`. -/
theorem c5_witness :
    cfgDefault.min_step ≤
      (runWindows cfgDefault stateAfterColdStart [failWindow]).step ∧
    (runWindows cfgDefault stateAfterColdStart [failWindow]).step ≤
      stateAfterColdStart.step := by
  obtain ⟨h1, h2, -, -⟩ := c5_step_monotone cfgDefault stateAfterColdStart
    [failWindow] (by norm_num [cfgDefault])
    (by norm_num [cfgDefault, stateAfterColdStart, suggest_next_margin,
      update, initState, coldWindow])
  exact ⟨h1, h2⟩

/-- A window reporting a margin far below the initial baseline of 35. -/
def lowWindow : Window :=
  { margin := 10, impressions := 55000, revenue := 25, cost := 16,
    bid_rate := 3/2, responses := 28000 }

/-- Counterexample to C7 as stated: a freshly constructed optimizer with
baseline margin 35 and step 1, fed a window whose reported margin is 10,
returns 11 — below the original baseline.  (`suggest_next_margin` echoes
the caller-supplied window margin; nothing in it enforces a floor at the
baseline unless the caller feeds back the proposed margins.) -/
theorem c7_counterexample :
    cfgDefault.baseline_margin = 35 ∧ 0 < cfgDefault.step ∧
    (suggest_next_margin cfgDefault (initState cfgDefault) lowWindow).1 = 11 ∧
    (suggest_next_margin cfgDefault (initState cfgDefault) lowWindow).1 <
      cfgDefault.baseline_margin := by
  refine ⟨rfl, by norm_num [cfgDefault], ?_, ?_⟩ <;>
    norm_num [suggest_next_margin, update, initState, cfgDefault, lowWindow]

theorem closed_step (cfg : Config) (b : ℚ) (s : OptimizerState) (o : Obs)
    (h1 : 0 < s.step) (h2 : b ≤ s.current_margin)
    (h3 : b ≤ s.last_safe_margin) :
    b ≤ (suggest_next_margin cfg s (obsWindow s.current_margin o)).1 ∧
    0 < (suggest_next_margin cfg s (obsWindow s.current_margin o)).2.step ∧
    b ≤ (suggest_next_margin cfg s
      (obsWindow s.current_margin o)).2.current_margin ∧
    b ≤ (suggest_next_margin cfg s
      (obsWindow s.current_margin o)).2.last_safe_margin := by
  rcases hbs : s.baseline_srpm with _ | bs
  · simp only [suggest_next_margin, update, obsWindow, hbs]
    exact ⟨le_trans h2 (le_add_of_nonneg_right h1.le), h1,
      le_trans h2 (le_add_of_nonneg_right h1.le), h2⟩
  · simp only [suggest_next_margin, update, obsWindow, hbs]
    split
    · exact ⟨h3, lt_of_lt_of_le (half_pos h1) (le_max_left _ _), h3, h3⟩
    · split
      · exact ⟨le_trans h2 (le_add_of_nonneg_right h1.le), h1,
          le_trans h2 (le_add_of_nonneg_right h1.le), h2⟩
      · exact ⟨h3, lt_of_lt_of_le (half_pos h1) (le_max_left _ _), h3, h3⟩

/-- C7 amended: in the closed loop where every call's window reports the
margin the optimizer itself proposed (the state's `current_margin`), a
freshly constructed optimizer with baseline margin `B` and positive step
only ever returns margins ≥ `B`. -/
theorem c7_upward_exploration (cfg : Config) (obs : List Obs)
    (hstep : 0 < cfg.step) :
    ∀ r ∈ closedLoopReturns cfg (initState cfg) obs,
      cfg.baseline_margin ≤ r := by
  have main : ∀ (l : List Obs) (s : OptimizerState),
      0 < s.step → cfg.baseline_margin ≤ s.current_margin →
      cfg.baseline_margin ≤ s.last_safe_margin →
      ∀ r ∈ closedLoopReturns cfg s l, cfg.baseline_margin ≤ r := by
    intro l
    induction l with
    | nil =>
        intro s _ _ _ r hr
        simp [closedLoopReturns] at hr
    | cons o rest ih =>
        intro s h1 h2 h3 r hr
        obtain ⟨ha, hb, hc, hd⟩ := closed_step cfg cfg.baseline_margin s o
          h1 h2 h3
        simp only [closedLoopReturns] at hr
        rcases List.mem_cons.mp hr with hr | hr
        · exact hr ▸ ha
        · exact ih _ hb hc hd r hr
  exact main obs (initState cfg) hstep (le_refl _) (le_refl _)

/-- The cold-start observation (the non-margin fields of `coldWindow`). -/
def coldObs : Obs :=
  { impressions := 55000, revenue := 25, cost := 16, bid_rate := 3/2,
    responses := 28000 }

/-- Witness for C7: one closed-loop call from the default fresh optimizer
returns exactly [36], and the theorem instantiated there bounds that
return below by the baseline margin 35. -/
theorem c7_witness :
    closedLoopReturns cfgDefault (initState cfgDefault) [coldObs] = [36] ∧
    cfgDefault.baseline_margin ≤ 36 := by
  have heval : closedLoopReturns cfgDefault (initState cfgDefault)
      [coldObs] = [36] := by
    norm_num [closedLoopReturns, obsWindow, suggest_next_margin, update,
      initState, cfgDefault, coldObs]
  refine ⟨heval, ?_⟩
  exact c7_upward_exploration cfgDefault [coldObs]
    (by norm_num [cfgDefault]) 36 (heval ▸ List.mem_singleton_self 36)

/-- The conversions `update` induces are lossless: on a window dict whose
six fields are already numbers, `compute_window_metrics` succeeds and
agrees with `windowMetricsOfFloats` (each `float(x or 0)` is the identity,
the falsy `0.0` included). -/
theorem computeWindowMetricsOfFloats_sound
    (margin impressions revenue cost bid_rate responses : ℚ) :
    compute_window_metrics [("impressions", .num impressions),
      ("revenue", .num revenue), ("cost", .num cost),
      ("bid_rate", .num bid_rate), ("margin", .num margin),
      ("responses", .num responses)] =
    .ok (windowMetricsOfFloats margin impressions revenue cost bid_rate
      responses) := by
  have conv : ∀ (w : List (String × Json)) (k : String) (q : ℚ),
      lookup w k = some (.num q) → getFloatOrZero w k = .ok q := by
    intro w k q hl
    by_cases hq : q = 0
    · simp [getFloatOrZero, hl, pyTruthy, hq]
    · simp [getFloatOrZero, hl, pyTruthy, hq, jsonFloat]
  rw [compute_window_metrics,
    conv _ "impressions" impressions (by simp [lookup]),
    conv _ "revenue" revenue (by simp [lookup]),
    conv _ "cost" cost (by simp [lookup]),
    conv _ "bid_rate" bid_rate (by simp [lookup]),
    conv _ "margin" margin (by simp [lookup]),
    conv _ "responses" responses (by simp [lookup])]
  rfl

/-- C8 amended: loading the persisted blob never raises when no blob
exists or when the blob is not parseable JSON (both fall back to the
freshly constructed state), and a blob whose `from_dict` decoding succeeds
loads as the decoded state; but — contrary to the claim as stated —
loading is not total: the valid-JSON blob `{"step": "fast"}` raises an
uncaught `ValueError` (`float("fast")` is outside the
`(JSONDecodeError, KeyError)` handler of `_load_state`), so there are
byte contents on which construction neither decodes a state nor falls
back. -/
theorem c8_load_fallback (fresh : OptimizerState) :
    loadState none fresh = .ok fresh ∧
    loadState (some none) fresh = .ok fresh ∧
    (∀ (j : Json) (s : OptimizerState), from_dict j = .ok s →
      loadState (some (some j)) fresh = .ok s) ∧
    loadState (some (some (Json.obj [("step", Json.str "fast")]))) fresh =
      .error .valueError := by
  refine ⟨rfl, rfl, ?_, rfl⟩
  intro j s h
  simp [loadState, h]

/-- Counterexample to C8 as stated: the byte content
`{"step": "fast"}` is valid JSON, but loading it raises `ValueError`
(Python's `float("fast")` inside `from_dict` is outside the
`(JSONDecodeError, KeyError)` handler of `_load_state`) — it neither
decodes to a state nor falls back to the fresh one. -/
theorem c8_counterexample :
    loadState (some (some (Json.obj [("step", Json.str "fast")])))
      (initState cfgDefault) = .error .valueError ∧
    ∀ (s : OptimizerState),
      loadState (some (some (Json.obj [("step", Json.str "fast")])))
        (initState cfgDefault) ≠ .ok s := by
  refine ⟨rfl, fun s h => ?_⟩
  rw [show loadState (some (some (Json.obj [("step", Json.str "fast")])))
    (initState cfgDefault) = .error .valueError from rfl] at h
  exact Except.noConfusion h

/-- Witness for C8: a missing blob loads the fresh default state, an
unparseable blob loads the fresh default state, and a well-formed blob
(`{"baseline_srpm": 2}`) loads as its decoded state. -/
theorem c8_witness :
    loadState none (initState cfgDefault) = .ok (initState cfgDefault) ∧
    loadState (some none) (initState cfgDefault) =
      .ok (initState cfgDefault) ∧
    loadState (some (some (Json.obj [("baseline_srpm", Json.num 2)])))
      (initState cfgDefault) =
      .ok { baseline_margin := 35, last_safe_margin := 35,
            current_margin := 35, step := 1, baseline_srpm := some 2 } := by
  obtain ⟨h1, h2, h3, -⟩ := c8_load_fallback (initState cfgDefault)
  exact ⟨h1, h2, h3 _ _ rfl⟩

/-- C9: the history is capped at the 100 most recent entries everywhere:
`update` appends the new window's entry and keeps exactly the last 100 of
the appended list (a suffix of it, of length ≤ 100), `suggest_next_margin`
never touches the history beyond its `update` step, and any state
`from_dict` successfully decodes has at most 100 history entries — the
most recent ones of the persisted list. -/
theorem c9_history_bounded :
    (∀ (s : OptimizerState) (w : Window),
      (update s w).2.history =
        keepLast 100 (s.history ++ [historyEntry w (wmOf w)]) ∧
      (update s w).2.history.length ≤ 100 ∧
      (update s w).2.history <:+ (s.history ++ [historyEntry w (wmOf w)])) ∧
    (∀ (cfg : Config) (s : OptimizerState) (w : Window),
      (suggest_next_margin cfg s w).2.history = (update s w).2.history) ∧
    (∀ (j : Json) (s : OptimizerState), from_dict j = .ok s →
      s.history.length ≤ 100 ∧
      (∀ (d : List (String × Json)) (l : List Json), j = .obj d →
        lookup d "history" = some (.arr l) →
        s.history = keepLast 100 l ∧ s.history <:+ l)) := by
  refine ⟨?_, ?_, ?_⟩
  · intro s w
    exact ⟨rfl, keepLast_length_le _ _, keepLast_suffix _ _⟩
  · intro cfg s w
    rcases hbs : s.baseline_srpm with _ | bs
    · simp [suggest_next_margin, update, hbs]
    · simp only [suggest_next_margin, update, hbs]
      split
      · rfl
      · split
        · rfl
        · rfl
  · intro j s h
    cases j with
    | obj d =>
        simp only [from_dict] at h
        obtain ⟨a1, h1, h⟩ := except_bind_ok _ _ _ h
        obtain ⟨a2, h2, h⟩ := except_bind_ok _ _ _ h
        obtain ⟨a3, h3, h⟩ := except_bind_ok _ _ _ h
        obtain ⟨a4, h4, h⟩ := except_bind_ok _ _ _ h
        obtain ⟨a5, h5, h⟩ := except_bind_ok _ _ _ h
        obtain ⟨a6, h6, h⟩ := except_bind_ok _ _ _ h
        obtain ⟨a7, h7, h⟩ := except_bind_ok _ _ _ h
        obtain ⟨a8, h8, h⟩ := except_bind_ok _ _ _ h
        cases h
        constructor
        · rcases hl : lookup d "history" with _ | v
          · rw [hl] at h8
            cases h8
            exact Nat.zero_le _
          · rcases v with _ | b | q | t | l | fields <;> rw [hl] at h8 <;>
              cases h8
            exact keepLast_length_le _ _
        · intro d2 l hj hl
          cases hj
          rw [hl] at h8
          cases h8
          exact ⟨rfl, keepLast_suffix _ _⟩
    | null => exact absurd h (by simp [from_dict])
    | bool b => exact absurd h (by simp [from_dict])
    | num q => exact absurd h (by simp [from_dict])
    | str t => exact absurd h (by simp [from_dict])
    | arr l => exact absurd h (by simp [from_dict])

/-- Witness for C9: a concrete `update` call appends its entry within the
bound, and the state decoded from a persisted blob with a 2-element
history keeps both entries, within the bound. -/
theorem c9_witness :
    (update (initState cfgDefault) coldWindow).2.history.length ≤ 100 ∧
    ({ baseline_margin := 35, last_safe_margin := 35, current_margin := 35,
       step := 1, history := [Json.null, Json.num 1] } :
       OptimizerState).history.length ≤ 100 := by
  refine ⟨(c9_history_bounded.1 (initState cfgDefault) coldWindow).2.1, ?_⟩
  exact (c9_history_bounded.2.2
    (Json.obj [("history", Json.arr [Json.null, Json.num 1])]) _ rfl).1

theorem cwm_ok_fields (w : List (String × Json)) (wm : WindowMetrics)
    (h : compute_window_metrics w = .ok wm) :
    (∃ q, getFloatOrZero w "impressions" = .ok q) ∧
    (∃ q, getFloatOrZero w "revenue" = .ok q) ∧
    (∃ q, getFloatOrZero w "cost" = .ok q) ∧
    (∃ q, getFloatOrZero w "bid_rate" = .ok q) ∧
    (∃ q, getFloatOrZero w "margin" = .ok q) ∧
    (∃ q, getFloatOrZero w "responses" = .ok q) := by
  simp only [compute_window_metrics] at h
  obtain ⟨a1, h1, h⟩ := except_bind_ok _ _ _ h
  obtain ⟨a2, h2, h⟩ := except_bind_ok _ _ _ h
  obtain ⟨a3, h3, h⟩ := except_bind_ok _ _ _ h
  obtain ⟨a4, h4, h⟩ := except_bind_ok _ _ _ h
  obtain ⟨a5, h5, h⟩ := except_bind_ok _ _ _ h
  obtain ⟨a6, h6, h⟩ := except_bind_ok _ _ _ h
  exact ⟨⟨a1, h1⟩, ⟨a2, h2⟩, ⟨a3, h3⟩, ⟨a4, h4⟩, ⟨a5, h5⟩, ⟨a6, h6⟩⟩

/-- C10 amended: a window holding a non-numeric *non-empty* string in any
of the six fields makes `compute_window_metrics` raise a conversion
failure; absent fields are treated as zero — but so are empty strings
(and any other falsy value), which Python's `x or 0` idiom silently
coerces to zero before `float(...)` ever sees them. -/
theorem c10_nonnumeric_raises (w : List (String × Json)) (k t : String)
    (hk : k = "impressions" ∨ k = "revenue" ∨ k = "cost" ∨ k = "bid_rate" ∨
      k = "margin" ∨ k = "responses")
    (hv : lookup w k = some (.str t)) (hne : t ≠ "")
    (hparse : pyFloatOfString t = none) :
    (∃ e, compute_window_metrics w = .error e) ∧
    (∀ (v : List (String × Json)) (j : String), lookup v j = none →
      getFloatOrZero v j = .ok 0) ∧
    (∀ (v : List (String × Json)) (j : String),
      lookup v j = some (.str "") → getFloatOrZero v j = .ok 0) := by
  refine ⟨?_, fun v j hl => by simp [getFloatOrZero, hl, pyTruthy],
    fun v j hl => by simp [getFloatOrZero, hl, pyTruthy]⟩
  have hget : getFloatOrZero w k = .error .valueError := by
    simp [getFloatOrZero, hv, pyTruthy, hne, jsonFloat, hparse]
  rcases hres : compute_window_metrics w with e | wm
  · exact ⟨e, rfl⟩
  · exfalso
    obtain ⟨f1, f2, f3, f4, f5, f6⟩ := cwm_ok_fields w wm hres
    rcases hk with rfl | rfl | rfl | rfl | rfl | rfl
    · obtain ⟨q, hq⟩ := f1
      rw [hget] at hq
      cases hq
    · obtain ⟨q, hq⟩ := f2
      rw [hget] at hq
      cases hq
    · obtain ⟨q, hq⟩ := f3
      rw [hget] at hq
      cases hq
    · obtain ⟨q, hq⟩ := f4
      rw [hget] at hq
      cases hq
    · obtain ⟨q, hq⟩ := f5
      rw [hget] at hq
      cases hq
    · obtain ⟨q, hq⟩ := f6
      rw [hget] at hq
      cases hq

/-- Counterexample to C10 as stated: the window `{"margin": ""}` holds a
non-numeric string (`float("")` raises `ValueError` in Python), yet
`compute_window_metrics` does not raise — the `or 0` idiom coerces the
falsy empty string to zero, so the call succeeds with margin 0. -/
theorem c10_counterexample :
    compute_window_metrics [("margin", Json.str "")] =
      .ok (windowMetricsOfFloats 0 0 0 0 0 0) ∧
    (windowMetricsOfFloats 0 0 0 0 0 0).margin = 0 :=
  ⟨rfl, rfl⟩

/-- Witness for C10: the window `{"margin": "abc"}` raises a conversion
failure, and a window with no `"margin"` key at all converts the field to
zero. -/
theorem c10_witness :
    (∃ e, compute_window_metrics [("margin", Json.str "abc")] = .error e) ∧
    getFloatOrZero [] "margin" = .ok 0 := by
  obtain ⟨h1, h2, -⟩ := c10_nonnumeric_raises [("margin", Json.str "abc")]
    "margin" "abc" (by tauto) rfl (by decide) rfl
  exact ⟨h1, h2 [] "margin" rfl⟩

end PXOMS
